import Mathlib

set_option maxHeartbeats 1000000
set_option linter.unusedVariables false

namespace LinguaBuddy

/-- Speaker of a chat message: the `role` field of the `Message` interface in
`src/src/components/Chat/ChatInterface.tsx` (`'user' | 'assistant'`). -/
inductive Role
  | user
  | assistant
deriving DecidableEq, Repr

/-- The `Message` interface of `ChatInterface.tsx` (lines 6-12): an in-memory
turn. `translation` and `tip` are optional (`none` models a missing or null
field). -/
structure Message where
  id : String
  role : Role
  content : String
  translation : Option String := none
  tip : Option String := none
deriving DecidableEq, Repr

/-- The `Language` interface of `ChatInterface.tsx` (lines 14-20). -/
structure Language where
  id : String
  name : String
  code : String
  flag_emoji : String
  difficulty_level : String
deriving DecidableEq, Repr

/-- The component state of `ChatInterface` (lines 29-32): the `messages`,
`input`, `loading` and `conversationId` `useState` cells. -/
structure ChatState where
  messages : List Message
  input : String
  loading : Bool
  conversationId : Option String
deriving DecidableEq, Repr

/-- The initial component state: `useState([])`, `useState('')`,
`useState(false)`, `useState(null)` (lines 29-32). -/
def initialChatState : ChatState :=
  { messages := [], input := "", loading := false, conversationId := none }

/-- Modelled from the spec: the Record Store's result for a single write
(`insertMessage`/`updateConversation` return `ack | error`, section 6 of the
spec). The supabase client used by the source resolves every such call with a
`\x7b data, error \x7d` object and never rejects, so a write failure is a value, not a
thrown exception; the source discards these values entirely. -/
inductive DbResult
  | ok
  | err
deriving DecidableEq, Repr

/-- Decoded body of a successful inference response as read by `handleSend`
(lines 134-142): `aiData.response`, `aiData.translation`, `aiData.tip`. -/
structure AiData where
  response : String
  translation : Option String := none
  tip : Option String := none
deriving DecidableEq, Repr

/-- Result of the Inference Service call as observed at the `fetch` in
`handleSend` (lines 116-134): the fetch or the body decode can reject
(`fetchError`), the response can be non-success (`notOk`, which makes line 131
throw), or it succeeds with a decoded body. -/
inductive FetchOutcome
  | fetchError
  | notOk
  | ok (aiData : AiData)
deriving DecidableEq, Repr

/-- True on the two failure outcomes of the inference call, the ones that reach
the `catch` block of `handleSend` (lines 161-171). -/
def FetchOutcome.isErr : FetchOutcome → Bool
  | .ok _ => false
  | _ => true

/-- One `supabase.from('messages').insert(...)` request as issued by
`handleSend` (lines 101-105 and 146-151). -/
structure InsertMessageCall where
  conversation_id : String
  role : Role
  content : String
  translation : Option String := none
deriving DecidableEq, Repr

/-- One `supabase.from('conversations').update(...)` request as issued by
`handleSend` (lines 153-159). -/
structure UpdateCall where
  id : String
  message_count : Nat
  updated_at : String
deriving DecidableEq, Repr

/-- One element of the `messages` array of the inference request body
(lines 109-114): a turn reduced to role and content. -/
structure HistMsg where
  role : Role
  content : String
deriving DecidableEq, Repr

/-- The inference request body built by `handleSend` (lines 122-127). -/
structure InferenceRequest where
  messages : List HistMsg
  languageCode : String
  languageName : String
  difficulty : String
deriving DecidableEq, Repr

/-- The `supabase.from('conversations').insert(...)` request issued by
`initializeConversation` (lines 50-59). -/
structure ConversationInsertCall where
  user_id : String
  language_code : String
  title : String
  difficulty : String
deriving DecidableEq, Repr

/-- JavaScript `String.prototype.trim` as used on the input box value
(lines 89, 94): drop leading and trailing whitespace. Defined over the
character list so that it evaluates by kernel reduction. -/
def trimString (s : String) : String :=
  String.mk (((s.data.dropWhile Char.isWhitespace).reverse.dropWhile Char.isWhitespace).reverse)

/-- `getWelcomeMessage` (lines 74-86): language-appropriate greeting text. -/
def getWelcomeMessage (languageName : String) : String :=
  if languageName = "Spanish" then "¡Hola! Soy tu tutor de español. ¡Vamos a practicar juntos!"
  else if languageName = "French" then "Bonjour! Je suis votre tuteur de français. Pratiquons ensemble!"
  else if languageName = "German" then "Hallo! Ich bin dein Deutsch-Tutor. Lass uns zusammen üben!"
  else if languageName = "Hindi" then "नमस्ते! मैं आपका हिंदी शिक्षक हूं। चलिए साथ में अभ्यास करते हैं!"
  else if languageName = "Mandarin" then "你好！我是你的中文老师。让我们一起练习吧！"
  else if languageName = "Japanese" then "こんにちは！私はあなたの日本語の先生です。一緒に練習しましょう！"
  else if languageName = "Italian" then "Ciao! Sono il tuo tutor di italiano. Pratichiamo insieme!"
  else if languageName = "Portuguese" then "Olá! Sou seu tutor de português. Vamos praticar juntos!"
  else "Hello! Let\x27s practice together!"

/-- The synthetic greeting `Message` seeded by `initializeConversation`
(lines 64-69): id `'welcome'`, assistant role, greeting text, English gloss
as translation. -/
def welcomeMessage (language : Language) : Message :=
  { id := "welcome"
    role := .assistant
    content := getWelcomeMessage language.name
    translation := some ("Hello! I\x27m your " ++ language.name ++ " tutor. Let\x27s practice together!") }

/-- Result of `initializeConversation`: the new component state, the
conversation-record insert it issued, and the message-record inserts it issued
(the source issues none: the greeting is presentation-only). -/
structure InitResult where
  state : ChatState
  convInsert : Option ConversationInsertCall
  messageInserts : List InsertMessageCall
deriving DecidableEq, Repr

/-- Result produced by the Record Store for `initializeConversation`'s
conversation insert: the new record's id on success (`.select().single()`),
or an error. -/
inductive CreateResult
  | ok (id : String)
  | err
deriving DecidableEq, Repr

/-- `initializeConversation` (lines 47-72): returns early with no request if
there is no user; otherwise issues the conversation insert; on success stores
the returned id and seeds the message list with the single synthetic greeting;
on error leaves the state unchanged. -/
def initializeConversation (user : Option String) (language : Language)
    (s : ChatState) (result : CreateResult) : InitResult :=
  match user with
  | none => { state := s, convInsert := none, messageInserts := [] }
  | some userId =>
    let call : ConversationInsertCall :=
      { user_id := userId
        language_code := language.code
        title := language.name ++ " Practice"
        difficulty := language.difficulty_level }
    match result with
    | .ok convId =>
      { state := { s with
          conversationId := some convId
          messages := [welcomeMessage language] }
        convInsert := some call
        messageInserts := [] }
    | .err => { state := s, convInsert := some call, messageInserts := [] }

/-- Result of one `handleSend` invocation: the final component state, the
message-record inserts it issued, the conversation-record updates it issued,
and the inference request it sent (`none` when the guard returned early). -/
structure HandleSendResult where
  state : ChatState
  inserts : List InsertMessageCall
  updates : List UpdateCall
  request : Option InferenceRequest
deriving DecidableEq, Repr

/-- `handleSend` (lines 88-175). Parameters beyond the captured state: the ids
produced by `Date.now().toString()` for the user and assistant messages, the
`new Date().toISOString()` timestamp, and the environment's responses to the
four I/O requests. The three `DbResult` parameters are the Record Store's
answers to the user insert (line 101), assistant insert (line 146) and counter
update (line 153); the source awaits each and discards the result, so they do
not occur in the body. The guard (line 89) returns early when the trimmed
input is empty, no conversation id exists, or an exchange is in flight. The
`none` branch of the inner match is dead: the guard has established the id is
present. -/
def handleSend (language : Language) (s : ChatState)
    (userMsgId assistantMsgId nowIso : String)
    (userInsertResult : DbResult) (outcome : FetchOutcome)
    (assistantInsertResult updateResult : DbResult) : HandleSendResult :=
  if (trimString s.input).isEmpty || s.conversationId.isNone || s.loading then
    { state := s, inserts := [], updates := [], request := none }
  else
    match s.conversationId with
    | none => { state := s, inserts := [], updates := [], request := none }
    | some conversationId =>
      let userMessage : Message :=
        { id := userMsgId, role := .user, content := (trimString s.input) }
      let s1 : ChatState :=
        { s with messages := s.messages ++ [userMessage], input := "", loading := true }
      let userInsert : InsertMessageCall :=
        { conversation_id := conversationId, role := .user, content := userMessage.content }
      let conversationHistory : List HistMsg :=
        (s.messages.filter (fun m => m.id != "welcome")).map
          (fun m => { role := m.role, content := m.content })
      let request : InferenceRequest :=
        { messages := conversationHistory ++ [{ role := .user, content := userMessage.content }]
          languageCode := language.code
          languageName := language.name
          difficulty := language.difficulty_level }
      match outcome with
      | .ok aiData =>
        let assistantMessage : Message :=
          { id := assistantMsgId, role := .assistant, content := aiData.response
            translation := aiData.translation, tip := aiData.tip }
        let assistantInsert : InsertMessageCall :=
          { conversation_id := conversationId, role := .assistant
            content := assistantMessage.content, translation := assistantMessage.translation }
        let update : UpdateCall :=
          { id := conversationId, message_count := s.messages.length + 2, updated_at := nowIso }
        { state := { s1 with messages := s1.messages ++ [assistantMessage], loading := false }
          inserts := [userInsert, assistantInsert]
          updates := [update]
          request := some request }
      | _ =>
        let apology : Message :=
          { id := assistantMsgId, role := .assistant
            content := "Sorry, I encountered an error. Please try again."
            translation := some "Sorry, I encountered an error. Please try again." }
        { state := { s1 with messages := s1.messages ++ [apology], loading := false }
          inserts := [userInsert]
          updates := []
          request := some request }

/-- The synchronous prefix of `handleSend` (lines 88-99): the guard, the
optimistic append of the user turn, clearing the input box and raising the
loading flag. Everything here executes before the first `await` (the user
insert at line 101), so it takes no I/O responses as input. -/
def handleSendSync (s : ChatState) (userMsgId : String) : ChatState :=
  if (trimString s.input).isEmpty || s.conversationId.isNone || s.loading then s
  else
    { s with
        messages := s.messages ++ [{ id := userMsgId, role := .user, content := (trimString s.input) }]
        input := ""
        loading := true }

/-- The `onChange` handler of the input box (line 254): `setInput(value)`. -/
def typeInput (value : String) (s : ChatState) : ChatState :=
  { s with input := value }

/-- The Spanish language record used by the `Initialize("es","Beginner")`
scenario of the spec (section 8). -/
def esLanguage : Language :=
  { id := "lang-es", name := "Spanish", code := "es", flag_emoji := "🇪🇸"
    difficulty_level := "Beginner" }

/-- Scenario step 1: `initializeConversation` succeeding with conversation id
`conv-1` for user `user-1`. -/
def scenarioInit : InitResult :=
  initializeConversation (some "user-1") esLanguage initialChatState (.ok "conv-1")

/-- Scenario step 2: the user has typed `Hola` into the input box. -/
def scenarioReady : ChatState := typeInput "Hola" scenarioInit.state

/-- Scenario: the decoded body of the successful inference response. -/
def scenarioReply : AiData :=
  { response := "¡Hola! ¿Cómo estás?", translation := some "Hello! How are you?", tip := none }

/-- Scenario step 3: `handleSend` with a successful inference response and all
persistence acknowledged. -/
def scenarioSend : HandleSendResult :=
  handleSend esLanguage scenarioReady "1001" "1002" "2026-01-01T00:00:00.000Z"
    .ok (.ok scenarioReply) .ok .ok

/-- Scenario variant: `handleSend` where the inference fetch rejects. -/
def scenarioSendFail : HandleSendResult :=
  handleSend esLanguage scenarioReady "1001" "1002" "2026-01-01T00:00:00.000Z"
    .ok .fetchError .ok .ok

/-- Scenario variant: the user has typed `Hola` with surrounding whitespace. -/
def scenarioPadded : ChatState := typeInput "  Hola  " scenarioInit.state

/-- Opening brace character, written via its code point. -/
def lbraceChar : Char := Char.ofNat 123

/-- Closing brace character, written via its code point. -/
def rbraceChar : Char := Char.ofNat 125

/-- Double-quote character, written via its code point. -/
def quoteChar : Char := Char.ofNat 34

/-- Backslash character, written via its code point. -/
def backslashChar : Char := Char.ofNat 92

/-- A JavaScript value as produced by `JSON.parse` in the edge function
`src/supabase/functions/ai-chat/index.ts` (line 88). Numbers are kept as their
source lexemes: no claim depends on numeric values. -/
inductive Json
  | null
  | bool (b : Bool)
  | num (lexeme : String)
  | str (s : String)
  | arr (elems : List Json)
  | obj (fields : List (String × Json))

/-- JSON whitespace. -/
def isWsChar (c : Char) : Bool :=
  c = ' ' || c = '\t' || c = '\n' || c = '\r'

/-- Drop leading JSON whitespace. -/
def skipWs : List Char → List Char
  | [] => []
  | c :: cs => if isWsChar c then skipWs cs else c :: cs

/-- Value of a hexadecimal digit. -/
def hexDigitVal (c : Char) : Option Nat :=
  if 48 ≤ c.toNat && c.toNat ≤ 57 then some (c.toNat - 48)
  else if 97 ≤ c.toNat && c.toNat ≤ 102 then some (c.toNat - 87)
  else if 65 ≤ c.toNat && c.toNat ≤ 70 then some (c.toNat - 55)
  else none

/-- Parse the body of a JSON string literal, after the opening quote: returns
the decoded characters and the remaining input after the closing quote. -/
def parseStringChars : Nat → List Char → Option (List Char × List Char)
  | 0, _ => none
  | _, [] => none
  | fuel + 1, c :: cs =>
    if c = quoteChar then some ([], cs)
    else if c = backslashChar then
      match cs with
      | [] => none
      | e :: cs2 =>
        if e = 'u' then
          match cs2 with
          | h1 :: h2 :: h3 :: h4 :: cs3 =>
            match hexDigitVal h1, hexDigitVal h2, hexDigitVal h3, hexDigitVal h4 with
            | some v1, some v2, some v3, some v4 =>
              match parseStringChars fuel cs3 with
              | some (rest, rem) =>
                some (Char.ofNat (((v1 * 16 + v2) * 16 + v3) * 16 + v4) :: rest, rem)
              | none => none
            | _, _, _, _ => none
          | _ => none
        else
          let esc : Option Char :=
            if e = quoteChar then some quoteChar
            else if e = backslashChar then some backslashChar
            else if e = '/' then some '/'
            else if e = 'b' then some (Char.ofNat 8)
            else if e = 'f' then some (Char.ofNat 12)
            else if e = 'n' then some '\n'
            else if e = 'r' then some '\r'
            else if e = 't' then some '\t'
            else none
          match esc with
          | none => none
          | some ch =>
            match parseStringChars fuel cs2 with
            | some (rest, rem) => some (ch :: rest, rem)
            | none => none
    else
      match parseStringChars fuel cs with
      | some (rest, rem) => some (c :: rest, rem)
      | none => none

/-- Take a maximal run of decimal digits. -/
def takeDigits : List Char → List Char × List Char
  | [] => ([], [])
  | c :: cs =>
    if c.isDigit then
      let (ds, rest) := takeDigits cs
      (c :: ds, rest)
    else ([], c :: cs)

/-- Parse an optional JSON fraction part (`.` followed by digits). -/
def parseFracPart : List Char → Option (List Char × List Char)
  | [] => some ([], [])
  | c :: rest =>
    if c = '.' then
      match takeDigits rest with
      | ([], _) => none
      | (ds, cs2) => some ('.' :: ds, cs2)
    else some ([], c :: rest)

/-- Parse an optional JSON exponent part (`e`/`E`, optional sign, digits). -/
def parseExpPart : List Char → Option (List Char × List Char)
  | [] => some ([], [])
  | c :: rest =>
    if c = 'e' || c = 'E' then
      let (sign, rest2) :=
        match rest with
        | d :: r2 => if d = '+' || d = '-' then ([d], r2) else (([] : List Char), rest)
        | [] => ([], rest)
      match takeDigits rest2 with
      | ([], _) => none
      | (ds, cs2) => some (c :: (sign ++ ds), cs2)
    else some ([], c :: rest)

/-- Parse a JSON number, returning its lexeme. -/
def parseNumberLex (cs : List Char) : Option (List Char × List Char) :=
  let (sign, cs1) :=
    match cs with
    | c :: rest => if c = '-' then ([c], rest) else (([] : List Char), cs)
    | [] => ([], cs)
  match takeDigits cs1 with
  | ([], _) => none
  | (ds, cs2) =>
    match parseFracPart cs2 with
    | none => none
    | some (fs, cs3) =>
      match parseExpPart cs3 with
      | none => none
      | some (es, cs4) => some (sign ++ ds ++ fs ++ es, cs4)

/-- Drop an exact expected character sequence. -/
def dropExact : List Char → List Char → Option (List Char)
  | [], cs => some cs
  | p :: ps, c :: cs => if c = p then dropExact ps cs else none
  | _ :: _, [] => none

mutual

/-- Parse one JSON value (fueled recursive descent, as `JSON.parse` accepts). -/
def parseValue : Nat → List Char → Option (Json × List Char)
  | 0, _ => none
  | fuel + 1, cs =>
    match skipWs cs with
    | [] => none
    | c :: rest =>
      if c = quoteChar then
        match parseStringChars (rest.length + 1) rest with
        | some (sChars, rem) => some (.str (String.mk sChars), rem)
        | none => none
      else if c = lbraceChar then
        match parseMembers fuel rest with
        | some (fields, rem) => some (.obj fields, rem)
        | none => none
      else if c = '[' then
        match parseElems fuel rest with
        | some (elems, rem) => some (.arr elems, rem)
        | none => none
      else if c = 't' then
        match dropExact ['r', 'u', 'e'] rest with
        | some rem => some (.bool true, rem)
        | none => none
      else if c = 'f' then
        match dropExact ['a', 'l', 's', 'e'] rest with
        | some rem => some (.bool false, rem)
        | none => none
      else if c = 'n' then
        match dropExact ['u', 'l', 'l'] rest with
        | some rem => some (.null, rem)
        | none => none
      else
        match parseNumberLex (c :: rest) with
        | some (lex, rem) => some (.num (String.mk lex), rem)
        | none => none

/-- Parse one `"key": value` member of a JSON object. -/
def parseMember : Nat → List Char → Option ((String × Json) × List Char)
  | 0, _ => none
  | fuel + 1, cs =>
    match skipWs cs with
    | [] => none
    | c :: rest =>
      if c = quoteChar then
        match parseStringChars (rest.length + 1) rest with
        | none => none
        | some (keyChars, rem) =>
          match skipWs rem with
          | ':' :: rem2 =>
            match parseValue fuel rem2 with
            | some (v, rem3) => some ((String.mk keyChars, v), rem3)
            | none => none
          | _ => none
      else none

/-- Parse the members of a JSON object, called right after the opening brace. -/
def parseMembers : Nat → List Char → Option (List (String × Json) × List Char)
  | 0, _ => none
  | fuel + 1, cs =>
    match skipWs cs with
    | [] => none
    | c :: rest =>
      if c = rbraceChar then some ([], rest)
      else
        match parseMember fuel (c :: rest) with
        | none => none
        | some (kv, rem) =>
          match parseMembersTail fuel rem with
          | some (kvs, rem2) => some (kv :: kvs, rem2)
          | none => none

/-- Parse the continuation of a JSON object after one member: a comma and a
further member, or the closing brace. -/
def parseMembersTail : Nat → List Char → Option (List (String × Json) × List Char)
  | 0, _ => none
  | fuel + 1, cs =>
    match skipWs cs with
    | [] => none
    | c :: rest =>
      if c = rbraceChar then some ([], rest)
      else if c = ',' then
        match parseMember fuel rest with
        | none => none
        | some (kv, rem) =>
          match parseMembersTail fuel rem with
          | some (kvs, rem2) => some (kv :: kvs, rem2)
          | none => none
      else none

/-- Parse the elements of a JSON array, called right after the opening bracket. -/
def parseElems : Nat → List Char → Option (List Json × List Char)
  | 0, _ => none
  | fuel + 1, cs =>
    match skipWs cs with
    | [] => none
    | c :: rest =>
      if c = ']' then some ([], rest)
      else
        match parseValue fuel (c :: rest) with
        | none => none
        | some (v, rem) =>
          match parseElemsTail fuel rem with
          | some (vs, rem2) => some (v :: vs, rem2)
          | none => none

/-- Parse the continuation of a JSON array after one element: a comma and a
further element, or the closing bracket. -/
def parseElemsTail : Nat → List Char → Option (List Json × List Char)
  | 0, _ => none
  | fuel + 1, cs =>
    match skipWs cs with
    | [] => none
    | c :: rest =>
      if c = ']' then some ([], rest)
      else if c = ',' then
        match parseValue fuel rest with
        | none => none
        | some (v, rem) =>
          match parseElemsTail fuel rem with
          | some (vs, rem2) => some (v :: vs, rem2)
          | none => none
      else none

end

/-- `JSON.parse` as used at line 88 of the edge function: parse one value and
require only trailing whitespace after it; `none` models a thrown
`SyntaxError`. -/
def jsonParse (s : String) : Option Json :=
  match parseValue (s.data.length + 1) s.data with
  | some (j, rest) => if (skipWs rest).isEmpty then some j else none
  | none => none

/-- Lines 86-95 of the edge function: `parsedResponse` is the parsed reply when
`JSON.parse` succeeds, and otherwise the fallback object carrying the raw text
as `response`, the fixed `"Translation not available"` as `translation`, and a
null `tip`. This value is what the handler serialises as the response body
(line 97). -/
def parsedResponse (aiResponse : String) : Json :=
  match jsonParse aiResponse with
  | some j => j
  | none =>
    Json.obj
      [("response", Json.str aiResponse),
       ("translation", Json.str "Translation not available"),
       ("tip", Json.null)]

/-- Follows the spec's words (section 6): a reply body is parseable as the
structured reply when it is a JSON object whose `response` and `translation`
fields are strings and whose `tip`, if present, is a string or null. Written
from the spec for comparison with the source's fallback condition, which is
only whether `JSON.parse` succeeds. -/
def specStructuredReply (j : Json) : Bool :=
  match j with
  | .obj fields =>
    (match fields.lookup "response" with
     | some (.str _) => true
     | _ => false)
    && (match fields.lookup "translation" with
        | some (.str _) => true
        | _ => false)
    && (match fields.lookup "tip" with
        | none => true
        | some (.str _) => true
        | some .null => true
        | _ => false)
  | _ => false

/-- Early-return behaviour of `handleSend`: when the guard at line 89 fires,
the state is unchanged and no request of any kind is issued. -/
theorem handleSend_noop (language : Language) (s : ChatState)
    (uid aid iso : String) (r1 : DbResult) (oc : FetchOutcome) (r2 r3 : DbResult)
    (h : ((trimString s.input).isEmpty || s.conversationId.isNone || s.loading) = true) :
    handleSend language s uid aid iso r1 oc r2 r3 =
      { state := s, inserts := [], updates := [], request := none } := by
  simp [handleSend, h]

/-- Full description of `handleSend` on the success path (lines 91-159). -/
theorem handleSend_ok_eq (language : Language) (s : ChatState) (cid : String)
    (uid aid iso : String) (r1 : DbResult) (ai : AiData) (r2 r3 : DbResult)
    (h1 : (trimString s.input).isEmpty = false) (h2 : s.conversationId = some cid)
    (h3 : s.loading = false) :
    handleSend language s uid aid iso r1 (.ok ai) r2 r3 =
      { state :=
          { messages := s.messages ++ [{ id := uid, role := .user, content := trimString s.input }]
              ++ [{ id := aid, role := .assistant, content := ai.response,
                    translation := ai.translation, tip := ai.tip }]
            input := ""
            loading := false
            conversationId := some cid }
        inserts :=
          [{ conversation_id := cid, role := .user, content := trimString s.input },
           { conversation_id := cid, role := .assistant, content := ai.response,
             translation := ai.translation }]
        updates := [{ id := cid, message_count := s.messages.length + 2, updated_at := iso }]
        request := some
          { messages := (s.messages.filter (fun m => m.id != "welcome")).map
                (fun m => { role := m.role, content := m.content })
              ++ [{ role := .user, content := trimString s.input }]
            languageCode := language.code
            languageName := language.name
            difficulty := language.difficulty_level } } := by
  simp [handleSend, h1, h2, h3]

/-- Full description of `handleSend` on the inference-failure path
(lines 91-128 and 161-174). -/
theorem handleSend_err_eq (language : Language) (s : ChatState) (cid : String)
    (uid aid iso : String) (r1 : DbResult) (oc : FetchOutcome) (r2 r3 : DbResult)
    (h1 : (trimString s.input).isEmpty = false) (h2 : s.conversationId = some cid)
    (h3 : s.loading = false) (hoc : oc.isErr = true) :
    handleSend language s uid aid iso r1 oc r2 r3 =
      { state :=
          { messages := s.messages ++ [{ id := uid, role := .user, content := trimString s.input }]
              ++ [{ id := aid, role := .assistant,
                    content := "Sorry, I encountered an error. Please try again.",
                    translation := some "Sorry, I encountered an error. Please try again." }]
            input := ""
            loading := false
            conversationId := some cid }
        inserts := [{ conversation_id := cid, role := .user, content := trimString s.input }]
        updates := []
        request := some
          { messages := (s.messages.filter (fun m => m.id != "welcome")).map
                (fun m => { role := m.role, content := m.content })
              ++ [{ role := .user, content := trimString s.input }]
            languageCode := language.code
            languageName := language.name
            difficulty := language.difficulty_level } } := by
  cases oc with
  | ok ai => simp [FetchOutcome.isErr] at hoc
  | fetchError => simp [handleSend, h1, h2, h3]
  | notOk => simp [handleSend, h1, h2, h3]

/-- Claim C2: for every `Submit` that passes its preconditions, the loading
flag is false once `handleSend` completes, for every combination of
persistence results (including a failed user-turn insert) and every inference
outcome, so the session never remains stuck awaiting a reply. -/
theorem claim_C2_loading_cleared (language : Language) (s : ChatState) (cid : String)
    (uid aid iso : String) (r1 : DbResult) (oc : FetchOutcome) (r2 r3 : DbResult)
    (h1 : (trimString s.input).isEmpty = false) (h2 : s.conversationId = some cid)
    (h3 : s.loading = false) :
    (handleSend language s uid aid iso r1 oc r2 r3).state.loading = false := by
  cases oc <;> simp [handleSend, h1, h2, h3]

/-- Witness for claim C2 at a concrete input: the user-turn insert fails and
the inference fetch rejects, yet the loading flag ends false. -/
theorem claim_C2_witness :
    (trimString scenarioReady.input).isEmpty = false ∧
    scenarioReady.conversationId = some "conv-1" ∧
    scenarioReady.loading = false ∧
    (handleSend esLanguage scenarioReady "1001" "1002" "t" .err .fetchError .err
        .err).state.loading = false :=
  ⟨rfl, rfl, rfl,
   claim_C2_loading_cleared esLanguage scenarioReady "conv-1" "1001" "1002" "t"
     .err .fetchError .err .err rfl rfl rfl⟩

/-- Claim C5: the results of the three Record Store writes issued by
`handleSend` (user-turn insert, assistant-turn insert, counter update) have no
effect whatsoever: any run equals the run in which all three succeeded — the
state, the turn sequence, the issued requests and the inference request are
identical, so a persistence failure adds no turn, rolls nothing back, triggers
no retry, and the conversation continues as if it had succeeded. -/
theorem claim_C5_persistence_failure_invisible (language : Language) (s : ChatState)
    (uid aid iso : String) (r1 : DbResult) (oc : FetchOutcome) (r2 r3 : DbResult) :
    handleSend language s uid aid iso r1 oc r2 r3 =
      handleSend language s uid aid iso .ok oc .ok .ok := rfl

/-- Claim C4: `handleSend` is a no-op — state unchanged, no message insert, no
conversation update, no inference request — whenever the trimmed input is
empty, or no conversation id exists, or the loading flag is set; and after the
synchronous prefix of a passing `handleSend` the loading flag is set, so a
second `handleSend` issued before the first resolves is dropped entirely. -/
theorem claim_C4_noop_and_reentrancy :
    (∀ (language : Language) (s : ChatState) (uid aid iso : String) (r1 : DbResult)
        (oc : FetchOutcome) (r2 r3 : DbResult),
      ((trimString s.input).isEmpty || s.conversationId.isNone || s.loading) = true →
        handleSend language s uid aid iso r1 oc r2 r3 =
          { state := s, inserts := [], updates := [], request := none }) ∧
    (∀ (s : ChatState) (uid : String),
      (trimString s.input).isEmpty = false → s.conversationId.isNone = false →
        s.loading = false →
        (handleSendSync s uid).loading = true ∧
        ∀ (language : Language) (uid2 aid iso : String) (r1 : DbResult)
            (oc : FetchOutcome) (r2 r3 : DbResult),
          handleSend language (handleSendSync s uid) uid2 aid iso r1 oc r2 r3 =
            { state := handleSendSync s uid, inserts := [], updates := [],
              request := none }) := by
  constructor
  · intro language s uid aid iso r1 oc r2 r3 h
    simp [handleSend, h]
  · intro s uid h1 h2 h3
    constructor
    · simp [handleSendSync, h1, h2, h3]
    · intro language uid2 aid iso r1 oc r2 r3
      have hmid : handleSendSync s uid =
          { s with
              messages := s.messages ++
                [{ id := uid, role := .user, content := trimString s.input }]
              input := ""
              loading := true } := by
        simp [handleSendSync, h1, h2, h3]
      rw [hmid]
      exact handleSend_noop language _ uid2 aid iso r1 oc r2 r3 (by simp)

/-- Witness for claim C4 at concrete inputs: a submit on the freshly
initialized state (empty input) is a no-op, and a second submit issued while
the first is in flight is dropped. -/
theorem claim_C4_witness :
    (handleSend esLanguage scenarioInit.state "1" "2" "t" .ok .notOk .ok .ok =
      { state := scenarioInit.state, inserts := [], updates := [], request := none }) ∧
    (handleSendSync scenarioReady "1001").loading = true ∧
    (handleSend esLanguage (handleSendSync scenarioReady "1001") "1002" "1003" "t"
        .ok .notOk .ok .ok =
      { state := handleSendSync scenarioReady "1001", inserts := [], updates := [],
        request := none }) :=
  ⟨claim_C4_noop_and_reentrancy.1 esLanguage scenarioInit.state "1" "2" "t" .ok .notOk
     .ok .ok rfl,
   (claim_C4_noop_and_reentrancy.2 scenarioReady "1001" rfl rfl rfl).1,
   (claim_C4_noop_and_reentrancy.2 scenarioReady "1001" rfl rfl rfl).2 esLanguage
     "1002" "1003" "t" .ok .notOk .ok .ok⟩

/-- Claim C6: when the preconditions hold, the synchronous prefix of
`handleSend` — the part before the first await, which takes no I/O response as
input — appends exactly one user turn carrying the trimmed input, and the
final message list of the full `handleSend` extends that prefix list for every
inference outcome and every persistence result. -/
theorem claim_C6_sync_user_append (s : ChatState) (cid uid : String)
    (h1 : (trimString s.input).isEmpty = false) (h2 : s.conversationId = some cid)
    (h3 : s.loading = false) :
    (handleSendSync s uid).messages =
      s.messages ++ [{ id := uid, role := .user, content := trimString s.input }] ∧
    ∀ (language : Language) (aid iso : String) (r1 : DbResult) (oc : FetchOutcome)
        (r2 r3 : DbResult),
      ∃ tail,
        (handleSend language s uid aid iso r1 oc r2 r3).state.messages =
          (handleSendSync s uid).messages ++ tail := by
  constructor
  · simp [handleSendSync, h1, h2, h3]
  · intro language aid iso r1 oc r2 r3
    cases oc with
    | ok ai =>
      exact ⟨[{ id := aid, role := .assistant, content := ai.response,
                translation := ai.translation, tip := ai.tip }],
        by simp [handleSend, handleSendSync, h1, h2, h3]⟩
    | fetchError =>
      exact ⟨[{ id := aid, role := .assistant,
                content := "Sorry, I encountered an error. Please try again.",
                translation := some "Sorry, I encountered an error. Please try again." }],
        by simp [handleSend, handleSendSync, h1, h2, h3]⟩
    | notOk =>
      exact ⟨[{ id := aid, role := .assistant,
                content := "Sorry, I encountered an error. Please try again.",
                translation := some "Sorry, I encountered an error. Please try again." }],
        by simp [handleSend, handleSendSync, h1, h2, h3]⟩

/-- Witness for claim C6 at the scenario input. -/
theorem claim_C6_witness :
    (handleSendSync scenarioReady "1001").messages =
      scenarioReady.messages ++ [{ id := "1001", role := .user, content := "Hola" }] ∧
    ∃ tail,
      (handleSend esLanguage scenarioReady "1001" "1002" "t" .ok (.ok scenarioReply)
          .ok .ok).state.messages =
        (handleSendSync scenarioReady "1001").messages ++ tail :=
  ⟨(claim_C6_sync_user_append scenarioReady "conv-1" "1001" rfl rfl rfl).1,
   (claim_C6_sync_user_append scenarioReady "conv-1" "1001" rfl rfl rfl).2 esLanguage
     "1002" "t" .ok (.ok scenarioReply) .ok .ok⟩

/-- Counterexample to claim C1 as stated: in the scenario
`Initialize("es","Beginner")` then `Submit("Hola")` with inference success, the
stored counter is 3, not 2 — the source stores the stale pre-exchange
`messages.length + 2`, and that length includes the synthetic greeting. -/
theorem claim_C1_counterexample :
    scenarioSend.updates.map (fun u => u.message_count) = [3] ∧
    ([3] : List Nat) ≠ [2] :=
  ⟨rfl, by decide⟩

/-- Claim C1 (amended): in the scenario the final turn sequence is
[greeting, user Hola, assistant reply] and the stored counter is 3 (the
pre-exchange in-memory length, greeting included, plus 2); in general a
successful exchange grows the in-memory sequence by exactly 2 and stores
exactly the pre-exchange length plus 2, so two consecutive successful
exchanges store counters exactly 2 apart. -/
theorem claim_C1_turn_count_amended :
    (scenarioSend.state.messages =
        [welcomeMessage esLanguage,
         { id := "1001", role := .user, content := "Hola" },
         { id := "1002", role := .assistant, content := "¡Hola! ¿Cómo estás?",
           translation := some "Hello! How are you?", tip := none }] ∧
      scenarioSend.updates =
        [{ id := "conv-1", message_count := 3,
           updated_at := "2026-01-01T00:00:00.000Z" }]) ∧
    (∀ (language : Language) (s : ChatState) (cid uid aid iso : String)
        (r1 : DbResult) (ai : AiData) (r2 r3 : DbResult),
      (trimString s.input).isEmpty = false → s.conversationId = some cid →
        s.loading = false →
        (handleSend language s uid aid iso r1 (.ok ai) r2 r3).state.messages.length =
            s.messages.length + 2 ∧
          (handleSend language s uid aid iso r1 (.ok ai) r2 r3).updates.map
              (fun u => u.message_count) = [s.messages.length + 2]) ∧
    (∀ (language : Language) (s : ChatState) (cid uid aid iso : String)
        (r1 : DbResult) (ai : AiData) (r2 r3 : DbResult) (t2 uid2 aid2 iso2 : String)
        (r1' : DbResult) (ai2 : AiData) (r2' r3' : DbResult),
      (trimString s.input).isEmpty = false → s.conversationId = some cid →
        s.loading = false → (trimString t2).isEmpty = false →
        (handleSend language
            (typeInput t2 (handleSend language s uid aid iso r1 (.ok ai) r2 r3).state)
            uid2 aid2 iso2 r1' (.ok ai2) r2' r3').updates.map
            (fun u => u.message_count) = [s.messages.length + 4]) := by
  refine ⟨⟨rfl, rfl⟩, ?_, ?_⟩
  · intro language s cid uid aid iso r1 ai r2 r3 h1 h2 h3
    rw [handleSend_ok_eq language s cid uid aid iso r1 ai r2 r3 h1 h2 h3]
    simp
  · intro language s cid uid aid iso r1 ai r2 r3 t2 uid2 aid2 iso2 r1' ai2 r2' r3'
      h1 h2 h3 ht2
    have e1 := handleSend_ok_eq language s cid uid aid iso r1 ai r2 r3 h1 h2 h3
    have e2 := handleSend_ok_eq language
      (typeInput t2 (handleSend language s uid aid iso r1 (.ok ai) r2 r3).state)
      cid uid2 aid2 iso2 r1' ai2 r2' r3'
      (by exact ht2) (by rw [e1]; rfl) (by rw [e1]; rfl)
    rw [e2, e1]
    simp [typeInput]

/-- Witness for the amended claim C1 at the scenario input: the stored counter
is the pre-exchange in-memory length plus 2. -/
theorem claim_C1_witness :
    (handleSend esLanguage scenarioReady "1001" "1002" "t0" .ok (.ok scenarioReply)
        .ok .ok).updates.map (fun u => u.message_count) = [3] :=
  (claim_C1_turn_count_amended.2.1 esLanguage scenarioReady "conv-1" "1001" "1002"
    "t0" .ok scenarioReply .ok .ok rfl rfl rfl).2

/-- Counterexample to claim C3 as stated: on an inference failure the in-memory
turn sequence grows by 2 (user turn plus synthetic apology), not by exactly 1 —
in the scenario it goes from 1 message to 3. -/
theorem claim_C3_counterexample :
    scenarioReady.messages.length = 1 ∧
    scenarioSendFail.state.messages.length = 3 ∧
    scenarioSendFail.state.messages.length ≠ scenarioReady.messages.length + 1 :=
  ⟨rfl, rfl, by decide⟩

/-- Claim C3 (amended): on every inference failure the in-memory sequence
grows by exactly 2 — the user turn plus exactly one synthetic assistant turn
carrying the fixed apology as both text and translation with no tip; the
synthetic turn is never persisted (the only message insert issued is the user
turn's), no counter update is issued, exactly one inference request was issued
with no retry, and the loading flag ends false. -/
theorem claim_C3_failure_amended (language : Language) (s : ChatState)
    (cid uid aid iso : String) (r1 : DbResult) (oc : FetchOutcome) (r2 r3 : DbResult)
    (h1 : (trimString s.input).isEmpty = false) (h2 : s.conversationId = some cid)
    (h3 : s.loading = false) (hoc : oc.isErr = true) :
    (handleSend language s uid aid iso r1 oc r2 r3).state.messages =
      s.messages ++ [{ id := uid, role := .user, content := trimString s.input }]
        ++ [{ id := aid, role := .assistant,
              content := "Sorry, I encountered an error. Please try again.",
              translation := some "Sorry, I encountered an error. Please try again.",
              tip := none }] ∧
    (handleSend language s uid aid iso r1 oc r2 r3).state.messages.length =
      s.messages.length + 2 ∧
    (handleSend language s uid aid iso r1 oc r2 r3).inserts =
      [{ conversation_id := cid, role := .user, content := trimString s.input,
         translation := none }] ∧
    (handleSend language s uid aid iso r1 oc r2 r3).updates = [] ∧
    (handleSend language s uid aid iso r1 oc r2 r3).request =
      some { messages := (s.messages.filter (fun m => m.id != "welcome")).map
               (fun m => { role := m.role, content := m.content })
               ++ [{ role := .user, content := trimString s.input }]
             languageCode := language.code
             languageName := language.name
             difficulty := language.difficulty_level } ∧
    (handleSend language s uid aid iso r1 oc r2 r3).state.loading = false := by
  rw [handleSend_err_eq language s cid uid aid iso r1 oc r2 r3 h1 h2 h3 hoc]
  exact ⟨rfl, by simp, rfl, rfl, rfl, rfl⟩

/-- Witness for the amended claim C3 at the scenario input with a rejected
fetch. -/
theorem claim_C3_witness :
    scenarioSendFail.state.messages =
      scenarioReady.messages ++ [{ id := "1001", role := .user, content := "Hola" }]
        ++ [{ id := "1002", role := .assistant,
              content := "Sorry, I encountered an error. Please try again.",
              translation := some "Sorry, I encountered an error. Please try again.",
              tip := none }] ∧
    scenarioSendFail.inserts =
      [{ conversation_id := "conv-1", role := .user, content := "Hola",
         translation := none }] ∧
    scenarioSendFail.updates = [] ∧
    scenarioSendFail.state.loading = false :=
  ⟨(claim_C3_failure_amended esLanguage scenarioReady "conv-1" "1001" "1002"
      "2026-01-01T00:00:00.000Z" .ok .fetchError .ok .ok rfl rfl rfl rfl).1,
   (claim_C3_failure_amended esLanguage scenarioReady "conv-1" "1001" "1002"
      "2026-01-01T00:00:00.000Z" .ok .fetchError .ok .ok rfl rfl rfl rfl).2.2.1,
   (claim_C3_failure_amended esLanguage scenarioReady "conv-1" "1001" "1002"
      "2026-01-01T00:00:00.000Z" .ok .fetchError .ok .ok rfl rfl rfl rfl).2.2.2.1,
   (claim_C3_failure_amended esLanguage scenarioReady "conv-1" "1001" "1002"
      "2026-01-01T00:00:00.000Z" .ok .fetchError .ok .ok rfl rfl rfl rfl).2.2.2.2.2⟩

/-- Claim C7: for every `Submit` from a state whose message list is the
synthetic greeting followed by real turns (none carrying the reserved
`welcome` id), the inference request body is exactly the real turns in order,
each reduced to role and content, with the new user turn (trimmed input)
appended once as the final element, plus the language code, language name and
difficulty level. -/
theorem claim_C7_request_body (language : Language) (s : ChatState)
    (cid uid aid iso : String) (r1 : DbResult) (oc : FetchOutcome) (r2 r3 : DbResult)
    (w : Message) (rest : List Message)
    (hmsgs : s.messages = w :: rest) (hw : w.id = "welcome")
    (hrest : ∀ m ∈ rest, m.id ≠ "welcome")
    (h1 : (trimString s.input).isEmpty = false) (h2 : s.conversationId = some cid)
    (h3 : s.loading = false) :
    (handleSend language s uid aid iso r1 oc r2 r3).request =
      some { messages := rest.map (fun m => { role := m.role, content := m.content })
               ++ [{ role := .user, content := trimString s.input }]
             languageCode := language.code
             languageName := language.name
             difficulty := language.difficulty_level } := by
  have hfilter : s.messages.filter (fun m => m.id != "welcome") = rest := by
    rw [hmsgs, List.filter_cons]
    simp only [hw, bne_self_eq_false, Bool.false_eq_true, if_false]
    exact List.filter_eq_self.mpr (fun m hm => by simpa using hrest m hm)
  cases oc with
  | ok ai =>
    rw [handleSend_ok_eq language s cid uid aid iso r1 ai r2 r3 h1 h2 h3, hfilter]
  | fetchError =>
    rw [handleSend_err_eq language s cid uid aid iso r1 .fetchError r2 r3 h1 h2 h3 rfl,
      hfilter]
  | notOk =>
    rw [handleSend_err_eq language s cid uid aid iso r1 .notOk r2 r3 h1 h2 h3 rfl,
      hfilter]

/-- Witness for claim C7 at the scenario input: the history is empty (only the
greeting existed) and the request carries exactly the new user turn plus the
language context. -/
theorem claim_C7_witness :
    (handleSend esLanguage scenarioReady "1001" "1002" "t" .ok (.ok scenarioReply)
        .ok .ok).request =
      some { messages := [{ role := .user, content := "Hola" }]
             languageCode := "es"
             languageName := "Spanish"
             difficulty := "Beginner" } :=
  claim_C7_request_body esLanguage scenarioReady "conv-1" "1001" "1002" "t" .ok
    (.ok scenarioReply) .ok .ok (welcomeMessage esLanguage) [] rfl rfl
    (fun m hm => absurd hm (List.not_mem_nil m)) rfl rfl rfl

/-- Claim C8: synthetic turns are never persisted. A successful
`initializeConversation` seeds exactly one synthetic assistant greeting turn
carrying its English gloss as translation, and issues zero message inserts; on
an inference failure the only message insert issued by `handleSend` is the
user turn's (none for the apology); on success the inserts are exactly the
user turn's and the real assistant reply's (none for the greeting). -/
theorem claim_C8_synthetic_not_persisted :
    (∀ (userId : String) (language : Language) (s : ChatState) (convId : String),
      (initializeConversation (some userId) language s (.ok convId)).state.messages =
        [{ id := "welcome", role := .assistant,
           content := getWelcomeMessage language.name,
           translation := some ("Hello! I\x27m your " ++ language.name ++
             " tutor. Let\x27s practice together!"),
           tip := none }] ∧
      (initializeConversation (some userId) language s (.ok convId)).messageInserts =
        []) ∧
    (∀ (language : Language) (s : ChatState) (cid uid aid iso : String)
        (r1 : DbResult) (oc : FetchOutcome) (r2 r3 : DbResult),
      (trimString s.input).isEmpty = false → s.conversationId = some cid →
        s.loading = false → oc.isErr = true →
        (handleSend language s uid aid iso r1 oc r2 r3).inserts =
          [{ conversation_id := cid, role := .user, content := trimString s.input,
             translation := none }]) ∧
    (∀ (language : Language) (s : ChatState) (cid uid aid iso : String)
        (r1 : DbResult) (ai : AiData) (r2 r3 : DbResult),
      (trimString s.input).isEmpty = false → s.conversationId = some cid →
        s.loading = false →
        (handleSend language s uid aid iso r1 (.ok ai) r2 r3).inserts =
          [{ conversation_id := cid, role := .user, content := trimString s.input,
             translation := none },
           { conversation_id := cid, role := .assistant, content := ai.response,
             translation := ai.translation }]) := by
  refine ⟨fun userId language s convId => ⟨rfl, rfl⟩, ?_, ?_⟩
  · intro language s cid uid aid iso r1 oc r2 r3 h1 h2 h3 hoc
    rw [handleSend_err_eq language s cid uid aid iso r1 oc r2 r3 h1 h2 h3 hoc]
  · intro language s cid uid aid iso r1 ai r2 r3 h1 h2 h3
    rw [handleSend_ok_eq language s cid uid aid iso r1 ai r2 r3 h1 h2 h3]

/-- Witness for claim C8 at concrete inputs: the scenario initialization and
both the failing and the successful scenario sends. -/
theorem claim_C8_witness :
    scenarioInit.state.messages =
      [{ id := "welcome", role := .assistant,
         content := getWelcomeMessage "Spanish",
         translation := some "Hello! I\x27m your Spanish tutor. Let\x27s practice together!",
         tip := none }] ∧
    scenarioInit.messageInserts = [] ∧
    scenarioSendFail.inserts =
      [{ conversation_id := "conv-1", role := .user, content := "Hola",
         translation := none }] ∧
    scenarioSend.inserts =
      [{ conversation_id := "conv-1", role := .user, content := "Hola",
         translation := none },
       { conversation_id := "conv-1", role := .assistant,
         content := "¡Hola! ¿Cómo estás?", translation := some "Hello! How are you?" }] :=
  ⟨(claim_C8_synthetic_not_persisted.1 "user-1" esLanguage initialChatState "conv-1").1,
   (claim_C8_synthetic_not_persisted.1 "user-1" esLanguage initialChatState "conv-1").2,
   claim_C8_synthetic_not_persisted.2.1 esLanguage scenarioReady "conv-1" "1001"
     "1002" "2026-01-01T00:00:00.000Z" .ok .fetchError .ok .ok rfl rfl rfl rfl,
   claim_C8_synthetic_not_persisted.2.2 esLanguage scenarioReady "conv-1" "1001"
     "1002" "2026-01-01T00:00:00.000Z" .ok scenarioReply .ok .ok rfl rfl rfl⟩

/-- Claim C10: for every input whose trim is non-empty (with a session and no
exchange in flight), the appended user turn, the user-turn message insert, and
the final element of the inference request history all carry exactly the
trimmed input. -/
theorem claim_C10_trimmed_everywhere (language : Language) (s : ChatState)
    (cid uid aid iso : String) (r1 : DbResult) (oc : FetchOutcome) (r2 r3 : DbResult)
    (h1 : (trimString s.input).isEmpty = false) (h2 : s.conversationId = some cid)
    (h3 : s.loading = false) :
    (handleSendSync s uid).messages.getLast? =
      some { id := uid, role := .user, content := trimString s.input } ∧
    (handleSend language s uid aid iso r1 oc r2 r3).inserts.head? =
      some { conversation_id := cid, role := .user, content := trimString s.input,
             translation := none } ∧
    ∃ req, (handleSend language s uid aid iso r1 oc r2 r3).request = some req ∧
      req.messages.getLast? = some { role := .user, content := trimString s.input } := by
  refine ⟨?_, ?_, ?_⟩
  · simp [handleSendSync, h1, h2, h3]
  · cases oc with
    | ok ai =>
      rw [handleSend_ok_eq language s cid uid aid iso r1 ai r2 r3 h1 h2 h3]
      rfl
    | fetchError =>
      rw [handleSend_err_eq language s cid uid aid iso r1 .fetchError r2 r3 h1 h2 h3 rfl]
      rfl
    | notOk =>
      rw [handleSend_err_eq language s cid uid aid iso r1 .notOk r2 r3 h1 h2 h3 rfl]
      rfl
  · cases oc with
    | ok ai =>
      rw [handleSend_ok_eq language s cid uid aid iso r1 ai r2 r3 h1 h2 h3]
      exact ⟨_, rfl, by simp⟩
    | fetchError =>
      rw [handleSend_err_eq language s cid uid aid iso r1 .fetchError r2 r3 h1 h2 h3 rfl]
      exact ⟨_, rfl, by simp⟩
    | notOk =>
      rw [handleSend_err_eq language s cid uid aid iso r1 .notOk r2 r3 h1 h2 h3 rfl]
      exact ⟨_, rfl, by simp⟩

/-- Witness for claim C10 at a padded concrete input `"  Hola  "`: each of the
three places carries `"Hola"`, which differs from the raw input. -/
theorem claim_C10_witness :
    (handleSendSync scenarioPadded "1001").messages.getLast? =
      some { id := "1001", role := .user, content := "Hola" } ∧
    (handleSend esLanguage scenarioPadded "1001" "1002" "t" .ok (.ok scenarioReply)
        .ok .ok).inserts.head? =
      some { conversation_id := "conv-1", role := .user, content := "Hola",
             translation := none } ∧
    (∃ req,
      (handleSend esLanguage scenarioPadded "1001" "1002" "t" .ok (.ok scenarioReply)
          .ok .ok).request = some req ∧
        req.messages.getLast? = some { role := .user, content := "Hola" }) ∧
    ("Hola" : String) ≠ "  Hola  " :=
  ⟨(claim_C10_trimmed_everywhere esLanguage scenarioPadded "conv-1" "1001" "1002" "t"
      .ok (.ok scenarioReply) .ok .ok rfl rfl rfl).1,
   (claim_C10_trimmed_everywhere esLanguage scenarioPadded "conv-1" "1001" "1002" "t"
      .ok (.ok scenarioReply) .ok .ok rfl rfl rfl).2.1,
   (claim_C10_trimmed_everywhere esLanguage scenarioPadded "conv-1" "1001" "1002" "t"
      .ok (.ok scenarioReply) .ok .ok rfl rfl rfl).2.2,
   by decide⟩

/-- Counterexample to claim C9 as stated: the raw reply `"\x7b\x7d"` is not
parseable as the structured reply (it lacks the `response` and `translation`
fields), yet the handler returns the parsed empty object as the body, not the
fallback — the source only falls back when `JSON.parse` itself throws. -/
theorem claim_C9_counterexample :
    jsonParse "\x7b\x7d" = some (Json.obj []) ∧
    specStructuredReply (Json.obj []) = false ∧
    parsedResponse "\x7b\x7d" = Json.obj [] ∧
    parsedResponse "\x7b\x7d" ≠
      Json.obj [("response", Json.str "\x7b\x7d"),
                ("translation", Json.str "Translation not available"),
                ("tip", Json.null)] := by
  refine ⟨rfl, rfl, rfl, ?_⟩
  have h : parsedResponse "\x7b\x7d" = Json.obj [] := rfl
  rw [h]
  simp

/-- Claim C9 (amended): for every inference reply whose raw text is not
parseable as JSON at all (so `JSON.parse` throws), the exchange does not fail:
the returned body is the fallback object with the raw text as `response`,
`"Translation not available"` as `translation`, and a null `tip`. -/
theorem claim_C9_fallback_amended (raw : String) (h : jsonParse raw = none) :
    parsedResponse raw =
      Json.obj [("response", Json.str raw),
                ("translation", Json.str "Translation not available"),
                ("tip", Json.null)] := by
  simp [parsedResponse, h]

/-- Witness for the amended claim C9 at the spec's own example input
`"Hola amigo"`, which is not parseable as JSON. -/
theorem claim_C9_witness :
    jsonParse "Hola amigo" = none ∧
    parsedResponse "Hola amigo" =
      Json.obj [("response", Json.str "Hola amigo"),
                ("translation", Json.str "Translation not available"),
                ("tip", Json.null)] :=
  ⟨rfl, claim_C9_fallback_amended "Hola amigo" rfl⟩

end LinguaBuddy
